import Mathlib

/-!
Verification development for the Basera multi-layer thinking core.

Shallow embedding of the Python sources
`complete_multi_layer_thinking_core.py`, `specialized_databases.py` and
`additional_specialized_databases.py`.  Conventions used throughout:

* Python `float` values are modelled as exact rationals (`ℚ`);
* wall-clock data (timestamps, processing times, `last_sync`, `last_update`)
  is omitted everywhere, since no verified property mentions it;
* Python dictionaries keyed by layer-name strings are modelled as functions
  or association lists keyed by `ThinkingLayerType` (the orchestrator's
  `self.layers` dictionary is keyed by exactly the eight `layer_type.value`
  strings, a bijection with the enum);
* SQLite tables are modelled as lists of row records in rowid order;
  `INSERT OR REPLACE` deletes the conflicting row and appends a fresh row.
-/

/-- The eight thinking-layer types, from the `ThinkingLayerType` enum
(`complete_multi_layer_thinking_core.py` lines 25-34), in definition order. -/
inductive ThinkingLayerType where
  | MATHEMATICAL
  | LOGICAL
  | INTERPRETIVE
  | PHYSICAL
  | LINGUISTIC
  | SYMBOLIC
  | VISUAL
  | SEMANTIC
deriving DecidableEq, Repr

/-- The five layer states from the `LayerState` enum (lines 36-42). -/
inductive LayerState where
  | INACTIVE
  | PROCESSING
  | ACTIVE
  | SYNCHRONIZED
  | ERROR
deriving DecidableEq, Repr

open ThinkingLayerType LayerState

/-- All eight layer types in enum definition order: `list(self.layers.keys())`
matches this order because `initialize_core` (lines 706-723) inserts one layer
per enum member in definition order. -/
def allLayerTypes : List ThinkingLayerType :=
  [MATHEMATICAL, LOGICAL, INTERPRETIVE, PHYSICAL, LINGUISTIC, SYMBOLIC, VISUAL, SEMANTIC]

/-- The `specialized` sub-dictionary of a successful layer result.  Every
branch of `_specialized_processing` (lines 117-277) returns a dictionary
carrying a `type` tag and a `confidence`; the remaining domain-specific keys
are opaque to the framework and are not modelled. -/
structure SpecializedResult where
  type : String
  confidence : ℚ
deriving DecidableEq, Repr

/-- The dictionary returned by `ThinkingLayer.process_input` (lines 77-115):
on success it carries the specialized payload and no `error` key, on failure
the `error` string and no specialized payload.  The `zero_duality`,
`perpendicularity` and `filament` keys (results of the absent
`revolutionary_mother_equation` module) and the timestamp are omitted: no
later stage reads them. -/
structure LayerResult where
  layer_type : ThinkingLayerType
  specialized : Option SpecializedResult
  error : Option String
deriving DecidableEq, Repr

/-- The `sync_data` dictionary built in `_synchronize_layers` (lines 841-845):
the two looked-up layer results (`results.get(name, {})` modelled as an
`Option`); the timestamp is omitted. -/
structure SyncData where
  result1 : Option LayerResult
  result2 : Option LayerResult
deriving DecidableEq, Repr

/-- `performance_metrics` of a layer (lines 60-65, updated in lines 661-677).
`average_processing_time` is wall-clock data and is omitted. -/
structure PerformanceMetrics where
  total_processed : ℕ
  success_rate : ℚ
deriving DecidableEq, Repr

/-- One thinking layer (`ThinkingLayer.__init__`, lines 50-75).
`synchronization_data` maps another layer's type to the last compatibility
score and sync data recorded for it (lines 622-626). -/
structure ThinkingLayer where
  layer_type : ThinkingLayerType
  state : LayerState
  synchronization_data : List (ThinkingLayerType × (ℚ × SyncData))
  metrics : PerformanceMetrics
deriving DecidableEq, Repr

/-- Python dictionary assignment `d[k] = v` on an association list: an
existing key keeps its position and gets the new value, a new key is
appended. -/
def alistInsert {α β : Type} [DecidableEq α] (l : List (α × β)) (k : α) (v : β) :
    List (α × β) :=
  if l.any (fun p => p.1 = k) then
    l.map (fun p => if p.1 = k then (k, v) else p)
  else
    l ++ [(k, v)]

/-- Python dictionary lookup `d.get(k)` on an association list. -/
def alistLookup {α β : Type} [DecidableEq α] (l : List (α × β)) (k : α) : Option β :=
  (l.find? (fun p => p.1 = k)).map (fun p => p.2)

/-- The static `compatibility_matrix` of known-good layer pairs from
`ThinkingLayer._calculate_compatibility` (lines 643-649). -/
def compatibility_matrix : List ((ThinkingLayerType × ThinkingLayerType) × ℚ) :=
  [((MATHEMATICAL, LOGICAL), 9/10),
   ((SYMBOLIC, VISUAL), 8/10),
   ((LINGUISTIC, SEMANTIC), 9/10),
   ((PHYSICAL, MATHEMATICAL), 8/10),
   ((INTERPRETIVE, SEMANTIC), 8/10)]

/-- Membership-then-lookup of an ordered pair in the compatibility matrix
(`layer_pair in compatibility_matrix`). -/
def pairLookup (a b : ThinkingLayerType) : Option ℚ :=
  (compatibility_matrix.find? (fun e => e.1 = (a, b))).map (fun e => e.2)

/-- `ThinkingLayer._calculate_compatibility` (lines 637-659): look the ordered
pair up, then the reversed pair, and fall back to the base compatibility 0.5.
The `sync_data` argument is ignored by the source body, so it is not a
parameter here. -/
def calculate_compatibility (self other : ThinkingLayerType) : ℚ :=
  match pairLookup self other with
  | some v => v
  | none =>
    match pairLookup other self with
    | some v => v
    | none => 1/2

/-- `ThinkingLayer.synchronize_with_layer` (lines 615-635): compute the
compatibility from the two layer types, record `(score, sync_data)` under the
other layer's type in the calling layer's `synchronization_data`, and move to
`SYNCHRONIZED` when the score exceeds 0.7.  Only the calling layer is
mutated; the function returns the score together with the updated caller.
The surrounding `try/except` cannot fire (the body performs only pure
dictionary operations), so it is not modelled. -/
def synchronize_with_layer (self other : ThinkingLayer) (sync_data : SyncData) :
    ℚ × ThinkingLayer :=
  let compatibility := calculate_compatibility self.layer_type other.layer_type
  let self1 : ThinkingLayer :=
    { self with synchronization_data :=
        alistInsert self.synchronization_data other.layer_type (compatibility, sync_data) }
  let self2 := if compatibility > 7/10 then { self1 with state := SYNCHRONIZED } else self1
  (compatibility, self2)

/-- `ThinkingLayer._update_performance_metrics` (lines 661-677): increment
the processed counter and recompute the running success rate;
`average_processing_time` (wall clock) is omitted. -/
def update_performance_metrics (m : PerformanceMetrics) (success : Bool) :
    PerformanceMetrics :=
  let total := m.total_processed + 1
  let current := m.success_rate * ((total : ℚ) - 1)
  { total_processed := total,
    success_rate := (if success then current + 1 else current) / (total : ℚ) }

/-- Modelled from the spec: the body of the `try` block of
`ThinkingLayer.process_input` applies the three mother-equation theories —
the `revolutionary_mother_equation` module is absent from the sources — and
the domain-specific `_specialized_processing`.  Per spec §4.1 this is
pluggable domain logic of which the framework inspects only the `type` tag
and the `confidence`; it either produces a specialized payload or raises,
here: returns `Except.error`. -/
def Processor (Input : Type) : Type :=
  ThinkingLayerType → Input → Except String SpecializedResult

/-- `ThinkingLayer.process_input` (lines 77-115): run the processor inside a
`try`; on success return the result record and enter `ACTIVE`, on an
exception capture it in the `error` field and enter `ERROR`; update the
performance counters either way.  (The transient `PROCESSING` state set on
entry is always overwritten before the function returns.) -/
def process_input {Input : Type} (proc : Processor Input) (layer : ThinkingLayer)
    (input : Input) : LayerResult × ThinkingLayer :=
  match proc layer.layer_type input with
  | Except.ok specialized =>
      ({ layer_type := layer.layer_type, specialized := some specialized, error := none },
       { layer with state := ACTIVE,
                    metrics := update_performance_metrics layer.metrics true })
  | Except.error e =>
      ({ layer_type := layer.layer_type, specialized := none, error := some e },
       { layer with state := ERROR,
                    metrics := update_performance_metrics layer.metrics false })

/-- Write one cell of the synchronization matrix
(`self.synchronization_matrix[a][b] = v`). -/
def setCell (m : ThinkingLayerType → ThinkingLayerType → ℚ)
    (a b : ThinkingLayerType) (v : ℚ) : ThinkingLayerType → ThinkingLayerType → ℚ :=
  fun x y => if x = a ∧ y = b then v else m x y

/-- The index pairs `(active[i], active[j])` with `i < j`, in the order the
nested loops of `_synchronize_layers` (lines 834-835) visit them. -/
def pairsAfter {α : Type} : List α → List (α × α)
  | [] => []
  | x :: xs => xs.map (fun y => (x, y)) ++ pairsAfter xs

/-- Accumulator of `_synchronize_layers`: the mutable layer registry and
synchronization matrix plus `total_sync` and `sync_count`. -/
structure SyncAccum where
  layers : ThinkingLayerType → ThinkingLayer
  matrix : ThinkingLayerType → ThinkingLayerType → ℚ
  total_sync : ℚ
  sync_count : ℕ

/-- One iteration of the pair loop of `_synchronize_layers` (lines 836-855):
build the sync data from the two looked-up results, let the first layer
synchronize with the second, write the score into both matrix cells and
accumulate it. -/
def syncStep (results : List (ThinkingLayerType × LayerResult)) (acc : SyncAccum)
    (p : ThinkingLayerType × ThinkingLayerType) : SyncAccum :=
  let sync_data : SyncData := ⟨alistLookup results p.1, alistLookup results p.2⟩
  let r := synchronize_with_layer (acc.layers p.1) (acc.layers p.2) sync_data
  { layers := fun t => if t = p.1 then r.2 else acc.layers t,
    matrix := setCell (setCell acc.matrix p.1 p.2 r.1) p.2 p.1 r.1,
    total_sync := acc.total_sync + r.1,
    sync_count := acc.sync_count + 1 }

/-- Result of `_synchronize_layers`: the score it returns plus the mutated
registry and matrix. -/
structure SyncOutcome where
  score : ℚ
  layers : ThinkingLayerType → ThinkingLayer
  matrix : ThinkingLayerType → ThinkingLayerType → ℚ

/-- `CompleteMultiLayerThinkingCore._synchronize_layers` (lines 826-857):
fewer than two active layers score 1.0 outright; otherwise loop over all
index pairs `i < j`, synchronize each pair once, and return the mean
`total_sync / sync_count`.  The source's guard `layer1_name in self.layers`
is always true here because the registry holds all eight types and the
active list is modelled over registry keys. -/
def synchronize_layers (layers : ThinkingLayerType → ThinkingLayer)
    (matrix : ThinkingLayerType → ThinkingLayerType → ℚ)
    (active : List ThinkingLayerType)
    (results : List (ThinkingLayerType × LayerResult)) : SyncOutcome :=
  if active.length < 2 then ⟨1, layers, matrix⟩
  else
    let acc := (pairsAfter active).foldl (syncStep results) ⟨layers, matrix, 0, 0⟩
    ⟨if acc.sync_count > 0 then acc.total_sync / (acc.sync_count : ℚ) else 0,
     acc.layers, acc.matrix⟩

/-- Python truthiness of `result.get('error')` in `_integrate_layer_results`
(line 874): a missing key and the empty string are both falsy. -/
def truthyError : Option String → Bool
  | some s => !s.isEmpty
  | none => false

/-- The `integrated` analysis dictionary of `_integrate_layer_results`
(lines 859-898).  The constant-text `revolutionary_synthesis` block is
omitted: it contains only fixed strings and flags derived from
`len(results)`, which no verified property mentions. -/
structure IntegratedAnalysis where
  total_layers : ℕ
  successful_layers : ℕ
  average_confidence : ℚ
  dominant_themes : List String
  cross_layer_insights : List String
deriving DecidableEq, Repr

/-- `_generate_cross_layer_insights` (lines 900-917): fixed pairs of present
layer keys trigger canned insight strings, in source order. -/
def generate_cross_layer_insights (results : List (ThinkingLayerType × LayerResult)) :
    List String :=
  let has := fun t => results.any (fun p => p.1 = t)
  (if has MATHEMATICAL && has PHYSICAL then ["mathematical_physical_convergence"] else []) ++
  (if has SYMBOLIC && has VISUAL then ["symbolic_visual_harmony"] else []) ++
  (if has LINGUISTIC && has SEMANTIC then ["linguistic_semantic_coherence"] else []) ++
  (if has LOGICAL && has INTERPRETIVE then ["logical_interpretive_synthesis"] else [])

/-- `CompleteMultiLayerThinkingCore._integrate_layer_results` (lines 859-898):
count the layers whose result has no truthy `error`, average the confidences
of those among them that carry a specialized payload (0.0 when none do), and
collect the deduplicated theme tags.  `dominant_themes` keeps first-occurrence
order (the source's `list(set(themes))` order is unspecified by Python; no
verified property reads this field). -/
def integrate_layer_results (results : List (ThinkingLayerType × LayerResult)) :
    IntegratedAnalysis :=
  let successes := results.filter (fun p => !truthyError p.2.error)
  let confidences := successes.filterMap (fun p => p.2.specialized.map (fun s => s.confidence))
  let themes := successes.filterMap (fun p => p.2.specialized.map (fun s => s.type))
  { total_layers := results.length,
    successful_layers := successes.length,
    average_confidence :=
      if confidences.isEmpty then 0 else confidences.sum / (confidences.length : ℚ),
    dominant_themes := themes.eraseDups,
    cross_layer_insights := generate_cross_layer_insights results }

/-- `core_statistics` of the orchestrator (lines 693-698, updated in
`_update_core_statistics`, lines 936-947); the creation timestamp is
omitted. -/
structure CoreStatistics where
  total_processed : ℕ
  successful_processing : ℕ
  average_sync_level : ℚ
deriving DecidableEq, Repr

/-- `CompleteMultiLayerThinkingCore._update_core_statistics`
(lines 936-947). -/
def update_core_statistics (s : CoreStatistics) (success : Bool) (sync_level : ℚ) :
    CoreStatistics :=
  let total := s.total_processed + 1
  { total_processed := total,
    successful_processing := s.successful_processing + (if success then 1 else 0),
    average_sync_level :=
      (s.average_sync_level * ((total : ℚ) - 1) + sync_level) / (total : ℚ) }

/-- State of `CompleteMultiLayerThinkingCore` (lines 685-733): the layer
registry (total over the eight types), whether `self.database_manager` is set
(`initialize_core` line 715 assigns it; it stays `None` when construction
raised), the synchronization matrix and the running statistics.  The manager
object itself carries no state the round can reach: its only use inside a
round is the failing attribute lookup modelled below. -/
structure CoreState where
  layers : ThinkingLayerType → ThinkingLayer
  hasManager : Bool
  matrix : ThinkingLayerType → ThinkingLayerType → ℚ
  stats : CoreStatistics

/-- The method names defined by `class CompleteSpecializedDatabaseManager`
(`additional_specialized_databases.py` lines 534-611) — the class bound to
the name `comprehensive_processing` calls `store_learning` on.  Python
attribute lookup of a name outside this list raises `AttributeError`. -/
def completeSpecializedDatabaseManagerMethods : List String :=
  ["__init__", "_initialize_all_databases", "store_learning_for_layer",
   "retrieve_knowledge_from_layer", "get_all_database_stats", "close_all_databases"]

/-- The `AttributeError` message Python produces for the lookup
`self.database_manager.store_learning` (line 760). -/
def storeLearningAttributeError : String :=
  "CompleteSpecializedDatabaseManager object has no attribute store_learning"

/-- The dictionary `comprehensive_processing` returns: the complete record of
the success path (lines 770-778) or the truncated record of the `except`
path (lines 790-795), which carries no layer results, no synchronization
level and no integrated analysis. -/
inductive RoundResult where
  | complete (processing_layers : List ThinkingLayerType)
      (layer_results : List (ThinkingLayerType × LayerResult))
      (synchronization_level : ℚ)
      (integrated_analysis : IntegratedAnalysis)
  | failed (processing_layers : List ThinkingLayerType) (error : String)
deriving DecidableEq, Repr

/-- The per-layer loop of `comprehensive_processing` (lines 745-760): process
each selected layer, store its result, and — when a database manager is
present — evaluate `self.database_manager.store_learning(...)`, whose
attribute lookup raises because the manager class defines no such method
(`completeSpecializedDatabaseManagerMethods`); the exception carries the
registry mutations already performed.  Every selected key is in the registry
(the registry is total over `ThinkingLayerType`), so the source's
`if layer_name in self.layers` guard is always true here.  The branch behind
the method-membership test continues the loop as the store call would; it is
unreachable with the actual method list. -/
def runLayersLoop {Input : Type} (proc : Processor Input) (input : Input)
    (hasManager : Bool) :
    List ThinkingLayerType → (ThinkingLayerType → ThinkingLayer) →
    List (ThinkingLayerType × LayerResult) →
    Except (String × (ThinkingLayerType → ThinkingLayer))
      ((ThinkingLayerType → ThinkingLayer) × List (ThinkingLayerType × LayerResult))
  | [], layers, results => Except.ok (layers, results)
  | t :: rest, layers, results =>
      let r := process_input proc (layers t) input
      let layers' := fun x => if x = t then r.2 else layers x
      let results' := alistInsert results t r.1
      if hasManager then
        if completeSpecializedDatabaseManagerMethods.contains "store_learning" then
          runLayersLoop proc input hasManager rest layers' results'
        else
          Except.error (storeLearningAttributeError, layers')
      else
        runLayersLoop proc input hasManager rest layers' results'

/-- `CompleteMultiLayerThinkingCore.comprehensive_processing` (lines 735-798):
resolve the active layer list (a falsy `target_layers` selects all eight
registry keys), run the per-layer loop inside the `try`, then synchronize,
integrate and return the complete round record; any exception is caught and
turned into the truncated error record with `success=False`. -/
def comprehensive_processing {Input : Type} (proc : Processor Input) (core : CoreState)
    (input : Input) (target_layers : Option (List ThinkingLayerType)) :
    RoundResult × CoreState :=
  let active := match target_layers with
    | some ts => if ts.isEmpty then allLayerTypes else ts
    | none => allLayerTypes
  match runLayersLoop proc input core.hasManager active core.layers [] with
  | Except.ok lr =>
      let sync := synchronize_layers lr.1 core.matrix active lr.2
      let integrated := integrate_layer_results lr.2
      (RoundResult.complete active lr.2 sync.score integrated,
       { layers := sync.layers, hasManager := core.hasManager, matrix := sync.matrix,
         stats := update_core_statistics core.stats true sync.score })
  | Except.error err =>
      (RoundResult.failed active err.1,
       { layers := err.2, hasManager := core.hasManager, matrix := core.matrix,
         stats := update_core_statistics core.stats false 0 })

/-- A freshly constructed `ThinkingLayer` (lines 50-75): `INACTIVE`, empty
synchronization map, zeroed counters. -/
def initialThinkingLayer (t : ThinkingLayerType) : ThinkingLayer :=
  { layer_type := t, state := INACTIVE, synchronization_data := [], metrics := ⟨0, 0⟩ }

/-- The orchestrator state after a successful `initialize_core`
(lines 706-733): all eight layers registered, database manager constructed,
matrix zeroed, statistics zeroed.  (`_initialize_synchronization_matrix`
creates 0.0 entries for all off-diagonal cells; the diagonal, absent in the
source dictionary, is modelled as 0 as well — it is never read before being
written.) -/
def initialCore : CoreState :=
  { layers := initialThinkingLayer, hasManager := true, matrix := fun _ _ => 0,
    stats := ⟨0, 0, 0⟩ }

/-- The orchestrator state when `CompleteSpecializedDatabaseManager()` raised
during `initialize_core` and `self.database_manager` stayed `None`. -/
def initialCoreNoManager : CoreState :=
  { initialCore with hasManager := false }

/-- The learning sources from the `LearningSource` enum
(`specialized_databases.py` lines 35-42). -/
inductive LearningSource where
  | USER_INTERACTION
  | INTERNET_RESEARCH
  | SELF_ANALYSIS
  | PATTERN_DISCOVERY
  | ERROR_CORRECTION
  | CROSS_LAYER_LEARNING
deriving DecidableEq, Repr

/-- A row of the `learning_sessions` table (schema lines 91-101):
`session_id` is `UNIQUE`; the autoincrement `id` and the timestamp column are
omitted (row identity is the list position); `metadata` holds the
JSON-serialized metadata as an opaque string. -/
structure LearningSessionRow where
  session_id : String
  source : LearningSource
  data_type : String
  success : Bool
  metadata : String
deriving DecidableEq, Repr

/-- A row of the `discovered_patterns` table (schema lines 104-114):
`pattern_id` is `UNIQUE`, `usage_count` defaults to 0; the autoincrement `id`
and `discovery_date` are omitted; `pattern_data` holds the JSON payload as an
opaque string. -/
structure DiscoveredPatternRow where
  pattern_id : String
  pattern_type : String
  pattern_data : String
  confidence : ℚ
  usage_count : ℕ
deriving DecidableEq, Repr

/-- The base tables shared by every specialized database
(`BaseSpecializedDatabase._create_base_tables`, lines 87-129), plus the
in-memory `self.learning_sessions` counter (line 63).  The
`error_corrections` table is created but never written by any source file,
so it is not modelled. -/
structure BaseDbState where
  learning_sessions : List LearningSessionRow
  discovered_patterns : List DiscoveredPatternRow
  learning_sessions_counter : ℕ
deriving DecidableEq, Repr

/-- `BaseSpecializedDatabase.log_learning_session` (lines 131-150):
`INSERT OR REPLACE INTO learning_sessions` — SQLite deletes any row whose
`UNIQUE session_id` conflicts and inserts the new row fresh (at the end, with
a new rowid) — then increments the in-memory counter. -/
def log_learning_session (db : BaseDbState) (session_id : String)
    (source : LearningSource) (data_type : String) (success : Bool)
    (metadata : String) : BaseDbState :=
  { db with
    learning_sessions :=
      db.learning_sessions.filter (fun r => r.session_id != session_id) ++
        [{ session_id := session_id, source := source, data_type := data_type,
           success := success, metadata := metadata }],
    learning_sessions_counter := db.learning_sessions_counter + 1 }

/-- `BaseSpecializedDatabase.store_pattern` (lines 152-168):
`INSERT OR REPLACE INTO discovered_patterns` keyed by the `UNIQUE`
`pattern_id`; the inserted row takes the default `usage_count = 0`. -/
def store_pattern (db : BaseDbState) (pattern_id pattern_type pattern_data : String)
    (confidence : ℚ) : BaseDbState :=
  { db with
    discovered_patterns :=
      db.discovered_patterns.filter (fun r => r.pattern_id != pattern_id) ++
        [{ pattern_id := pattern_id, pattern_type := pattern_type,
           pattern_data := pattern_data, confidence := confidence, usage_count := 0 }] }

/-- SQL `field LIKE '%query%'` on TEXT columns: substring containment.
SQLite's LIKE is case-insensitive on ASCII, modelled by lower-casing both
sides; an empty query matches every row. -/
def likeMatch (field query : String) : Bool :=
  query.isEmpty || 2 ≤ ((field.toLower).splitOn (query.toLower)).length

/-- Strict greater-than on a `(primary, secondary)` ranking-key pair,
lexicographically: the comparison behind `ORDER BY primary DESC,
secondary DESC`. -/
def rankGt {α : Type} (key : α → ℚ × ℚ) (a b : α) : Bool :=
  decide ((key b).1 < (key a).1 ∨ ((key a).1 = (key b).1 ∧ (key b).2 < (key a).2))

/-- Insert into a descending-ranked list: walk past strictly higher-ranked
rows and stop at the first row not strictly higher. -/
def insertRanked {α : Type} (key : α → ℚ × ℚ) (a : α) : List α → List α
  | [] => [a]
  | b :: l => if rankGt key b a then b :: insertRanked key a l else a :: b :: l

/-- `ORDER BY key₁ DESC, key₂ DESC` as a deterministic (insertion) sort.
SQLite's ordering among fully tied rows is unspecified; the model keeps
table order for ties, which is one valid SQLite answer. -/
def sortByRankDesc {α : Type} (key : α → ℚ × ℚ) : List α → List α
  | [] => []
  | a :: l => insertRanked key a (sortByRankDesc key l)

/-- A knowledge record returned by one of the `retrieve_knowledge`
implementations; one constructor per result-dictionary shape built in
`specialized_databases.py` / `additional_specialized_databases.py`. -/
inductive KnowledgeRecord where
  | equation (equation_id equation_type formula parameters : String)
      (accuracy : ℚ) (usage_count : ℕ)
  | constant (name : String) (value : ℚ) (description : String) (precision : ℕ)
  | word (word root pattern word_type meaning : String)
      (semantic_weight : ℚ) (frequency : ℕ)
  | letter_semantic (letter meaning phonetic : String) (symbolic_value : ℚ)
      (contexts significance : String)
  | logical_rule (rule_id rule_name rule_type premise conclusion : String)
      (confidence : ℚ) (applications : ℕ)
  | symbol (symbol symbol_type primary_meaning secondary_meanings
      cultural_context : String) (confidence : ℚ)
  | physical_law (law_name category expression description : String)
      (verification : ℚ)
deriving DecidableEq, Repr

/-- A row of the `equations` table (`specialized_databases.py` lines 238-251);
autoincrement id and `creation_date` omitted. -/
structure EquationRow where
  equation_id : String
  equation_type : String
  equation_formula : String
  parameters : String
  domain : String
  range_info : String
  accuracy : ℚ
  usage_count : ℕ
deriving DecidableEq, Repr

/-- A row of the `mathematical_constants` table (lines 269-279);
`verification_date` omitted.  `constant_value` is a REAL column, modelled as
an exact rational. -/
structure MathConstantRow where
  constant_name : String
  constant_value : ℚ
  constant_description : String
  precision_level : ℕ
  source : String
deriving DecidableEq, Repr

/-- State of `MathematicalDatabase` (lines 227-497): base tables plus the two
tables its `retrieve_knowledge` searches.  The `mathematical_models` and
`applied_theories` tables and the `_insert_initial_data` seed rows are not
modelled: every verified property quantifies over table contents. -/
structure MathematicalDatabase where
  base : BaseDbState
  equations : List EquationRow
  mathematical_constants : List MathConstantRow
deriving DecidableEq, Repr

/-- The WHERE clause of the equations query (lines 432-437). -/
def equationMatches (query : String) (r : EquationRow) : Bool :=
  likeMatch r.equation_type query || likeMatch r.equation_formula query

/-- The WHERE clause of the constants query (lines 451-456). -/
def constantMatches (query : String) (r : MathConstantRow) : Bool :=
  likeMatch r.constant_name query || likeMatch r.constant_description query

/-- `MathematicalDatabase.retrieve_knowledge` (lines 426-467): collect the
matching equations ordered by `accuracy DESC, usage_count DESC` (limited),
then the matching constants ordered by `precision_level DESC` (limited),
and truncate the concatenation to `limit`. -/
def MathematicalDatabase.retrieve_knowledge (db : MathematicalDatabase)
    (query : String) (limit : ℕ) : List KnowledgeRecord :=
  let eqRows := (sortByRankDesc (fun r => (r.accuracy, (r.usage_count : ℚ)))
      (db.equations.filter (equationMatches query))).take limit
  let constRows := (sortByRankDesc (fun r => ((r.precision_level : ℚ), 0))
      (db.mathematical_constants.filter (constantMatches query))).take limit
  ((eqRows.map fun r =>
      KnowledgeRecord.equation r.equation_id r.equation_type r.equation_formula
        r.parameters r.accuracy r.usage_count) ++
   (constRows.map fun r =>
      KnowledgeRecord.constant r.constant_name r.constant_value
        r.constant_description r.precision_level)).take limit

/-- A row of the `words_roots` table (lines 511-523); `last_used` omitted. -/
structure WordRootRow where
  word : String
  root : String
  pattern : String
  word_type : String
  meaning : String
  semantic_weight : ℚ
  frequency : ℕ
deriving DecidableEq, Repr

/-- A row of the `letter_semantics` table (lines 526-536). -/
structure LetterSemanticsRow where
  letter : String
  semantic_meaning : String
  phonetic_properties : String
  symbolic_value : ℚ
  usage_contexts : String
  cultural_significance : String
deriving DecidableEq, Repr

/-- State of `LinguisticDatabase` (lines 500-796): base tables plus the two
tables its `retrieve_knowledge` searches; `linguistic_patterns`,
`morphological_analysis` and the `_insert_initial_linguistic_data` seed rows
are not modelled. -/
structure LinguisticDatabase where
  base : BaseDbState
  words_roots : List WordRootRow
  letter_semantics : List LetterSemanticsRow
deriving DecidableEq, Repr

/-- The WHERE clause of the words query (lines 696-701). -/
def wordMatches (query : String) (r : WordRootRow) : Bool :=
  likeMatch r.word query || likeMatch r.root query || likeMatch r.meaning query

/-- `LinguisticDatabase.retrieve_knowledge` (lines 690-733): matching words
ordered by `semantic_weight DESC, frequency DESC` (limited); when the query
is a single character, the exactly matching `letter_semantics` rows are
appended; the concatenation is truncated to `limit`. -/
def LinguisticDatabase.retrieve_knowledge (db : LinguisticDatabase)
    (query : String) (limit : ℕ) : List KnowledgeRecord :=
  let wordRows := (sortByRankDesc (fun r => (r.semantic_weight, (r.frequency : ℚ)))
      (db.words_roots.filter (wordMatches query))).take limit
  let letterRows :=
    if query.length = 1 then
      db.letter_semantics.filter (fun r => r.letter == query)
    else []
  ((wordRows.map fun r =>
      KnowledgeRecord.word r.word r.root r.pattern r.word_type r.meaning
        r.semantic_weight r.frequency) ++
   (letterRows.map fun r =>
      KnowledgeRecord.letter_semantic r.letter r.semantic_meaning
        r.phonetic_properties r.symbolic_value r.usage_contexts
        r.cultural_significance)).take limit

/-- A row of the `logical_rules` table
(`additional_specialized_databases.py` lines 34-46); `creation_date`
omitted. -/
structure LogicalRuleRow where
  rule_id : String
  rule_name : String
  rule_type : String
  premise : String
  conclusion : String
  confidence : ℚ
  applications : ℕ
deriving DecidableEq, Repr

/-- State of `LogicalDatabase` (lines 23-202): base tables plus the table its
`retrieve_knowledge` searches; `inferences`,
`contradictions_perpendicularity`, `logical_patterns` and the seed rows are
not modelled. -/
structure LogicalDatabase where
  base : BaseDbState
  logical_rules : List LogicalRuleRow
deriving DecidableEq, Repr

/-- The WHERE clause of the rules query (lines 183-188). -/
def ruleMatches (query : String) (r : LogicalRuleRow) : Bool :=
  likeMatch r.rule_name query || likeMatch r.premise query ||
    likeMatch r.conclusion query

/-- `LogicalDatabase.retrieve_knowledge` (lines 177-202): matching rules
ordered by `confidence DESC, applications DESC`, truncated to `limit`. -/
def LogicalDatabase.retrieve_knowledge (db : LogicalDatabase)
    (query : String) (limit : ℕ) : List KnowledgeRecord :=
  let rows := (sortByRankDesc (fun r => (r.confidence, (r.applications : ℚ)))
      (db.logical_rules.filter (ruleMatches query))).take limit
  (rows.map fun r =>
      KnowledgeRecord.logical_rule r.rule_id r.rule_name r.rule_type r.premise
        r.conclusion r.confidence r.applications).take limit

/-- A row of the `symbols_meanings` table (lines 216-229); `last_interpreted`
omitted. -/
structure SymbolMeaningRow where
  symbol_id : String
  symbol : String
  symbol_type : String
  primary_meaning : String
  secondary_meanings : String
  cultural_context : String
  interpretation_confidence : ℚ
  usage_frequency : ℕ
deriving DecidableEq, Repr

/-- State of `InterpretiveDatabase` (lines 205-367): base tables plus the
table its `retrieve_knowledge` searches; the other interpretive tables and
seed rows are not modelled. -/
structure InterpretiveDatabase where
  base : BaseDbState
  symbols_meanings : List SymbolMeaningRow
deriving DecidableEq, Repr

/-- The WHERE clause of the symbols query (lines 349-354). -/
def symbolMatches (query : String) (r : SymbolMeaningRow) : Bool :=
  likeMatch r.symbol query || likeMatch r.primary_meaning query ||
    likeMatch r.secondary_meanings query

/-- `InterpretiveDatabase.retrieve_knowledge` (lines 343-367): matching
symbols ordered by `interpretation_confidence DESC, usage_frequency DESC`,
truncated to `limit`. -/
def InterpretiveDatabase.retrieve_knowledge (db : InterpretiveDatabase)
    (query : String) (limit : ℕ) : List KnowledgeRecord :=
  let rows := (sortByRankDesc
      (fun r => (r.interpretation_confidence, (r.usage_frequency : ℚ)))
      (db.symbols_meanings.filter (symbolMatches query))).take limit
  (rows.map fun r =>
      KnowledgeRecord.symbol r.symbol r.symbol_type r.primary_meaning
        r.secondary_meanings r.cultural_context r.interpretation_confidence).take limit

/-- A row of the `physical_laws` table (lines 381-394); `discovery_date`
omitted. -/
structure PhysicalLawRow where
  law_id : String
  law_name : String
  law_category : String
  mathematical_expression : String
  description : String
  applicable_domain : String
  experimental_verification : ℚ
  applications : ℕ
deriving DecidableEq, Repr

/-- State of `PhysicalDatabase` (lines 370-530): base tables plus the table
its `retrieve_knowledge` searches; the other physical tables and seed rows
are not modelled. -/
structure PhysicalDatabase where
  base : BaseDbState
  physical_laws : List PhysicalLawRow
deriving DecidableEq, Repr

/-- The WHERE clause of the laws query (lines 513-518). -/
def lawMatches (query : String) (r : PhysicalLawRow) : Bool :=
  likeMatch r.law_name query || likeMatch r.description query

/-- `PhysicalDatabase.retrieve_knowledge` (lines 507-530): matching laws
ordered by `experimental_verification DESC, applications DESC`, truncated to
`limit`. -/
def PhysicalDatabase.retrieve_knowledge (db : PhysicalDatabase)
    (query : String) (limit : ℕ) : List KnowledgeRecord :=
  let rows := (sortByRankDesc
      (fun r => (r.experimental_verification, (r.applications : ℚ)))
      (db.physical_laws.filter (lawMatches query))).take limit
  (rows.map fun r =>
      KnowledgeRecord.physical_law r.law_name r.law_category
        r.mathematical_expression r.description r.experimental_verification).take limit

/-- `MathematicalDatabase.store_learning` (lines 337-362) at the level the
verified properties need: a store call always ends in
`log_learning_session(session_id, source, "mathematical_data", success,
metadata)`.  The `session_id` is `f"math_learning_{uuid.uuid4()}"`; the
random uuid is modelled by the strictly increasing in-memory counter (fresh
per call).  The dispatch on the `data` dictionary into the specialized
tables (`equation`/`model`/`constant`) is not modelled — no verified
property reads those inserts — so the payload stays an opaque string, the
dispatch cannot raise here, and `success` is `true` as on the source's
normal path. -/
def MathematicalDatabase.store_learning (db : MathematicalDatabase)
    (data : String) (source : LearningSource) (metadata : String) :
    MathematicalDatabase :=
  let _ := data
  let session_id := "math_learning_" ++ toString db.base.learning_sessions_counter
  { db with base :=
      log_learning_session db.base session_id source "mathematical_data" true metadata }

/-- `LinguisticDatabase.store_learning` (lines 614-638), modelled like
`MathematicalDatabase.store_learning`; tag `"linguistic_data"`. -/
def LinguisticDatabase.store_learning (db : LinguisticDatabase)
    (data : String) (source : LearningSource) (metadata : String) :
    LinguisticDatabase :=
  let _ := data
  let session_id := "ling_learning_" ++ toString db.base.learning_sessions_counter
  { db with base :=
      log_learning_session db.base session_id source "linguistic_data" true metadata }

/-- `LogicalDatabase.store_learning`
(`additional_specialized_databases.py` lines 134-154), modelled like
`MathematicalDatabase.store_learning`; tag `"logical_data"`. -/
def LogicalDatabase.store_learning (db : LogicalDatabase)
    (data : String) (source : LearningSource) (metadata : String) :
    LogicalDatabase :=
  let _ := data
  let session_id := "logic_learning_" ++ toString db.base.learning_sessions_counter
  { db with base :=
      log_learning_session db.base session_id source "logical_data" true metadata }

/-- `InterpretiveDatabase.store_learning` (lines 321-341), modelled like
`MathematicalDatabase.store_learning`; tag `"interpretive_data"`. -/
def InterpretiveDatabase.store_learning (db : InterpretiveDatabase)
    (data : String) (source : LearningSource) (metadata : String) :
    InterpretiveDatabase :=
  let _ := data
  let session_id := "interp_learning_" ++ toString db.base.learning_sessions_counter
  { db with base :=
      log_learning_session db.base session_id source "interpretive_data" true metadata }

/-- `PhysicalDatabase.store_learning` (lines 485-505), modelled like
`MathematicalDatabase.store_learning`; tag `"physical_data"`. -/
def PhysicalDatabase.store_learning (db : PhysicalDatabase)
    (data : String) (source : LearningSource) (metadata : String) :
    PhysicalDatabase :=
  let _ := data
  let session_id := "phys_learning_" ++ toString db.base.learning_sessions_counter
  { db with base :=
      log_learning_session db.base session_id source "physical_data" true metadata }

/-- State of `CompleteSpecializedDatabaseManager`
(`additional_specialized_databases.py` lines 534-611):
`_initialize_all_databases` (lines 550-569) registers databases for exactly
the five layer types below; the `SYMBOLIC`, `VISUAL` and `SEMANTIC` entries
are left as `TODO` comments in the source and never created.
`learning_sessions` is the manager's in-memory counter (line 542). -/
structure CompleteSpecializedDatabaseManager where
  mathematical : MathematicalDatabase
  linguistic : LinguisticDatabase
  logical : LogicalDatabase
  interpretive : InterpretiveDatabase
  physical : PhysicalDatabase
  learning_sessions : ℕ
deriving DecidableEq, Repr

/-- The test `layer_type in self.databases` of the manager (lines 575, 586):
true for exactly the five registered layer types. -/
def hasDatabaseFor : ThinkingLayerType → Bool
  | MATHEMATICAL => true
  | LINGUISTIC => true
  | LOGICAL => true
  | INTERPRETIVE => true
  | PHYSICAL => true
  | SYMBOLIC => false
  | VISUAL => false
  | SEMANTIC => false

/-- `CompleteSpecializedDatabaseManager.store_learning_for_layer`
(lines 571-580): delegate to the layer's database and count the session when
the layer is registered; otherwise only print a warning — the manager and
every database stay untouched. -/
def store_learning_for_layer (m : CompleteSpecializedDatabaseManager)
    (layer_type : ThinkingLayerType) (data : String) (source : LearningSource)
    (metadata : String) : CompleteSpecializedDatabaseManager :=
  match layer_type with
  | MATHEMATICAL =>
      { m with mathematical := m.mathematical.store_learning data source metadata,
               learning_sessions := m.learning_sessions + 1 }
  | LINGUISTIC =>
      { m with linguistic := m.linguistic.store_learning data source metadata,
               learning_sessions := m.learning_sessions + 1 }
  | LOGICAL =>
      { m with logical := m.logical.store_learning data source metadata,
               learning_sessions := m.learning_sessions + 1 }
  | INTERPRETIVE =>
      { m with interpretive := m.interpretive.store_learning data source metadata,
               learning_sessions := m.learning_sessions + 1 }
  | PHYSICAL =>
      { m with physical := m.physical.store_learning data source metadata,
               learning_sessions := m.learning_sessions + 1 }
  | SYMBOLIC => m
  | VISUAL => m
  | SEMANTIC => m

/-- `CompleteSpecializedDatabaseManager.retrieve_knowledge_from_layer`
(lines 582-589): delegate to the layer's database when registered, return the
empty list otherwise. -/
def retrieve_knowledge_from_layer (m : CompleteSpecializedDatabaseManager)
    (layer_type : ThinkingLayerType) (query : String) (limit : ℕ) :
    List KnowledgeRecord :=
  match layer_type with
  | MATHEMATICAL => m.mathematical.retrieve_knowledge query limit
  | LINGUISTIC => m.linguistic.retrieve_knowledge query limit
  | LOGICAL => m.logical.retrieve_knowledge query limit
  | INTERPRETIVE => m.interpretive.retrieve_knowledge query limit
  | PHYSICAL => m.physical.retrieve_knowledge query limit
  | SYMBOLIC => []
  | VISUAL => []
  | SEMANTIC => []

/-- The compatibility table as the specification's sentence states it, for
comparison with `calculate_compatibility`: the five known-good pairs
MATHEMATICAL-LOGICAL 0.9, SYMBOLIC-VISUAL 0.8, LINGUISTIC-SEMANTIC 0.9,
PHYSICAL-MATHEMATICAL 0.8 and INTERPRETIVE-SEMANTIC 0.8, consulted in both
orders, with default 0.5 for every pair not in the table. -/
def claimedCompatibility (a b : ThinkingLayerType) : ℚ :=
  if (a = MATHEMATICAL ∧ b = LOGICAL) ∨ (a = LOGICAL ∧ b = MATHEMATICAL) then 9/10
  else if (a = SYMBOLIC ∧ b = VISUAL) ∨ (a = VISUAL ∧ b = SYMBOLIC) then 8/10
  else if (a = LINGUISTIC ∧ b = SEMANTIC) ∨ (a = SEMANTIC ∧ b = LINGUISTIC) then 9/10
  else if (a = PHYSICAL ∧ b = MATHEMATICAL) ∨ (a = MATHEMATICAL ∧ b = PHYSICAL) then 8/10
  else if (a = INTERPRETIVE ∧ b = SEMANTIC) ∨ (a = SEMANTIC ∧ b = INTERPRETIVE) then 8/10
  else 1/2

/-- The synchronization level a round record carries: present on the complete
record, absent on the truncated error record. -/
def roundSyncLevel : RoundResult → Option ℚ
  | RoundResult.complete _ _ sync _ => some sync
  | RoundResult.failed _ _ => none

/-- The per-layer results a round record carries: present on the complete
record, absent on the truncated error record. -/
def roundLayerResults : RoundResult → Option (List (ThinkingLayerType × LayerResult))
  | RoundResult.complete _ results _ _ => some results
  | RoundResult.failed _ _ => none

/-- A processor whose LOGICAL layer always raises and whose other layers
always succeed (the isolation scenario of spec §8). -/
def c2Processor : Processor Unit :=
  fun t _ =>
    if t = LOGICAL then Except.error "boom"
    else Except.ok { type := "analysis", confidence := 8/10 }

/-- The aggregation scenario of spec §8: layer confidences 0.8 and 0.6 plus
one errored layer. -/
def c6SampleResults : List (ThinkingLayerType × LayerResult) :=
  [(MATHEMATICAL,
    { layer_type := MATHEMATICAL,
      specialized := some { type := "mathematical_analysis", confidence := 8/10 },
      error := none }),
   (LOGICAL,
    { layer_type := LOGICAL,
      specialized := some { type := "logical_analysis", confidence := 6/10 },
      error := none }),
   (PHYSICAL,
    { layer_type := PHYSICAL, specialized := none,
      error := some "processing failed" })]

/-- Base tables of a freshly created specialized database: empty. -/
def emptyBaseDb : BaseDbState :=
  { learning_sessions := [], discovered_patterns := [], learning_sessions_counter := 0 }

/-- A mathematical database whose searchable tables are empty. -/
def emptyMathematicalDatabase : MathematicalDatabase :=
  { base := emptyBaseDb, equations := [], mathematical_constants := [] }

/-- The accuracy ranking key of an equation knowledge record, `none` for the
other record kinds. -/
def equationAccuracy : KnowledgeRecord → Option ℚ
  | KnowledgeRecord.equation _ _ _ _ accuracy _ => some accuracy
  | _ => none

/-- The precision ranking key of a constant knowledge record, `none` for the
other record kinds. -/
def constantPrecision : KnowledgeRecord → Option ℕ
  | KnowledgeRecord.constant _ _ _ precision => some precision
  | _ => none

/-- Empty sync data, for concrete instantiations. -/
def sampleSyncData : SyncData := { result1 := none, result2 := none }

/-- A processor whose every layer raises (total-failure scenario). -/
def failingProcessor : Processor Unit := fun _ _ => Except.error "boom"

/-- The successful-layer count of the integrated report a round record
carries: present on the complete record, absent on the truncated error
record. -/
def roundSuccessfulLayers : RoundResult → Option ℕ
  | RoundResult.complete _ _ _ integrated => some integrated.successful_layers
  | RoundResult.failed _ _ => none

/-! ### Helper lemmas about the compatibility table -/

theorem calculate_compatibility_eq_claimed (a b : ThinkingLayerType) :
    calculate_compatibility a b = claimedCompatibility a b := by
  cases a <;> cases b <;> rfl

theorem calculate_compatibility_symm (a b : ThinkingLayerType) :
    calculate_compatibility a b = calculate_compatibility b a := by
  cases a <;> cases b <;> rfl

theorem claimedCompatibility_bounds (a b : ThinkingLayerType) :
    0 ≤ claimedCompatibility a b ∧ claimedCompatibility a b ≤ 1 := by
  unfold claimedCompatibility
  split_ifs <;> norm_num

theorem synchronize_with_layer_score (a b : ThinkingLayer) (d : SyncData) :
    (synchronize_with_layer a b d).1 = calculate_compatibility a.layer_type b.layer_type := by
  simp only [synchronize_with_layer]

theorem synchronize_with_layer_state (a b : ThinkingLayer) (d : SyncData) :
    (synchronize_with_layer a b d).2.state =
      (if calculate_compatibility a.layer_type b.layer_type > 7/10 then SYNCHRONIZED
       else a.state) := by
  simp only [synchronize_with_layer]
  split_ifs <;> rfl

/-- Claim C5: for every pair of layers, `synchronize_with_layer` computes its
compatibility score purely from the two layer types via the static
known-good-pair table (MATHEMATICAL-LOGICAL 0.9, SYMBOLIC-VISUAL 0.8,
LINGUISTIC-SEMANTIC 0.9, PHYSICAL-MATHEMATICAL 0.8, INTERPRETIVE-SEMANTIC
0.8, consulted in both orders) and returns the default 0.5 for every pair
not in the table; the returned score is always in [0,1]; and the calling
layer's state transitions to SYNCHRONIZED only if the score exceeds 0.7. -/
theorem claim_C5_synchronize_score_table (a b : ThinkingLayer) (d : SyncData) :
    (synchronize_with_layer a b d).1 = claimedCompatibility a.layer_type b.layer_type ∧
    0 ≤ (synchronize_with_layer a b d).1 ∧
    (synchronize_with_layer a b d).1 ≤ 1 ∧
    ((synchronize_with_layer a b d).2.state = SYNCHRONIZED →
      7/10 < (synchronize_with_layer a b d).1 ∨ a.state = SYNCHRONIZED) := by
  have hs := synchronize_with_layer_score a b d
  have hb := claimedCompatibility_bounds a.layer_type b.layer_type
  have he := calculate_compatibility_eq_claimed a.layer_type b.layer_type
  refine ⟨hs.trans he, ?_, ?_, ?_⟩
  · rw [hs, he]; exact hb.1
  · rw [hs, he]; exact hb.2
  · intro hst
    rw [synchronize_with_layer_state] at hst
    by_cases hc : calculate_compatibility a.layer_type b.layer_type > 7/10
    · left; rw [hs]; exact hc
    · right; rw [if_neg hc] at hst; exact hst

/-- Witness for C5: synchronizing a SYMBOLIC layer with a VISUAL layer
yields the tabulated score 0.8 > 0.7 and the SYNCHRONIZED state, and the
theorem's transition implication is discharged at this concrete input. -/
theorem claim_C5_witness :
    (synchronize_with_layer (initialThinkingLayer SYMBOLIC)
        (initialThinkingLayer VISUAL) sampleSyncData).2.state = SYNCHRONIZED ∧
    (7/10 < (synchronize_with_layer (initialThinkingLayer SYMBOLIC)
        (initialThinkingLayer VISUAL) sampleSyncData).1 ∨
      (initialThinkingLayer SYMBOLIC).state = SYNCHRONIZED) := by
  have hst : (synchronize_with_layer (initialThinkingLayer SYMBOLIC)
      (initialThinkingLayer VISUAL) sampleSyncData).2.state = SYNCHRONIZED := by
    rw [synchronize_with_layer_state]
    rw [show calculate_compatibility (initialThinkingLayer SYMBOLIC).layer_type
        (initialThinkingLayer VISUAL).layer_type = 8/10 from rfl]
    norm_num
  exact ⟨hst,
    (claim_C5_synchronize_score_table (initialThinkingLayer SYMBOLIC)
      (initialThinkingLayer VISUAL) sampleSyncData).2.2.2 hst⟩

/-! ### Symmetry of the synchronization matrix update -/

theorem setCell_pair_symm (m : ThinkingLayerType → ThinkingLayerType → ℚ)
    (a b : ThinkingLayerType) (v : ℚ) (h : ∀ x y, m x y = m y x)
    (x y : ThinkingLayerType) :
    setCell (setCell m a b v) b a v x y = setCell (setCell m a b v) b a v y x := by
  simp only [setCell]
  by_cases c1 : x = b ∧ y = a
  · rw [if_pos c1]
    by_cases c2 : y = b ∧ x = a
    · rw [if_pos c2]
    · rw [if_neg c2, if_pos ⟨c1.2, c1.1⟩]
  · by_cases c2 : x = a ∧ y = b
    · rw [if_neg c1, if_pos c2, if_pos ⟨c2.2, c2.1⟩]
    · rw [if_neg c1, if_neg c2, if_neg (fun hc => c2 ⟨hc.2, hc.1⟩),
        if_neg (fun hc => c1 ⟨hc.2, hc.1⟩)]
      exact h x y

theorem syncFold_matrix_symm (results : List (ThinkingLayerType × LayerResult)) :
    ∀ (ps : List (ThinkingLayerType × ThinkingLayerType)) (acc : SyncAccum),
      (∀ x y, acc.matrix x y = acc.matrix y x) →
      ∀ x y, (ps.foldl (syncStep results) acc).matrix x y =
        (ps.foldl (syncStep results) acc).matrix y x := by
  intro ps
  induction ps with
  | nil => intro acc h; exact h
  | cons p ps ih =>
    intro acc h
    exact ih _ (setCell_pair_symm acc.matrix p.1 p.2 _ h)

/-- Claim C3: the pairwise synchronization score is symmetric —
`A.synchronize_with_layer(B, d)` equals `B.synchronize_with_layer(A, d)` for
layers in any states — and after `_synchronize_layers` the orchestrator's
synchronization matrix holds the same value in the (A,B) and (B,A) cells
(given the symmetric matrix it starts from). -/
theorem claim_C3_synchronization_symmetry :
    (∀ (a b : ThinkingLayer) (d : SyncData),
      (synchronize_with_layer a b d).1 = (synchronize_with_layer b a d).1) ∧
    (∀ (layers : ThinkingLayerType → ThinkingLayer)
      (matrix : ThinkingLayerType → ThinkingLayerType → ℚ)
      (active : List ThinkingLayerType)
      (results : List (ThinkingLayerType × LayerResult)),
      (∀ x y, matrix x y = matrix y x) →
      ∀ x y, (synchronize_layers layers matrix active results).matrix x y =
        (synchronize_layers layers matrix active results).matrix y x) := by
  constructor
  · intro a b d
    rw [synchronize_with_layer_score, synchronize_with_layer_score]
    exact calculate_compatibility_symm _ _
  · intro layers matrix active results h x y
    by_cases hl : active.length < 2
    · simp only [synchronize_layers, if_pos hl]
      exact h x y
    · simp only [synchronize_layers, if_neg hl]
      exact syncFold_matrix_symm results (pairsAfter active) ⟨layers, matrix, 0, 0⟩ h x y

/-- Witness for C3: the zero matrix the orchestrator starts from is
symmetric, and after a round over MATHEMATICAL, LOGICAL and PHYSICAL the
resulting matrix is symmetric in every cell. -/
theorem claim_C3_witness :
    (∀ x y : ThinkingLayerType,
      (fun (_ _ : ThinkingLayerType) => (0 : ℚ)) x y =
        (fun (_ _ : ThinkingLayerType) => (0 : ℚ)) y x) ∧
    (∀ x y, (synchronize_layers initialThinkingLayer (fun _ _ => 0)
        [MATHEMATICAL, LOGICAL, PHYSICAL] []).matrix x y =
      (synchronize_layers initialThinkingLayer (fun _ _ => 0)
        [MATHEMATICAL, LOGICAL, PHYSICAL] []).matrix y x) :=
  ⟨fun _ _ => rfl,
   claim_C3_synchronization_symmetry.2 initialThinkingLayer (fun _ _ => 0)
     [MATHEMATICAL, LOGICAL, PHYSICAL] [] (fun _ _ => rfl)⟩

/-! ### The pair list of a round -/

theorem choose_two_succ (n : ℕ) : (n + 1).choose 2 = n + n.choose 2 := by
  have h := Nat.choose_succ_succ n 1
  rw [Nat.choose_one_right] at h
  exact h

theorem length_pairsAfter {α : Type} : ∀ l : List α,
    (pairsAfter l).length = l.length.choose 2 := by
  intro l
  induction l with
  | nil => rfl
  | cons x xs ih =>
    rw [pairsAfter, List.length_append, List.length_map, ih, List.length_cons,
      choose_two_succ]

theorem mem_pairsAfter {α : Type} (p : α × α) :
    ∀ l : List α, p ∈ pairsAfter l → p.1 ∈ l ∧ p.2 ∈ l := by
  intro l
  induction l with
  | nil => intro h; simp [pairsAfter] at h
  | cons x xs ih =>
    intro h
    rw [pairsAfter, List.mem_append] at h
    rcases h with h | h
    · obtain ⟨y, hy, hp⟩ := List.mem_map.mp h
      rw [← hp]
      exact ⟨List.mem_cons_self x xs, List.mem_cons_of_mem x hy⟩
    · obtain ⟨h1, h2⟩ := ih h
      exact ⟨List.mem_cons_of_mem x h1, List.mem_cons_of_mem x h2⟩


theorem countP_decide_mem {α : Type} [DecidableEq α] (b : α) :
    ∀ l : List α, l.Nodup → b ∈ l →
      l.countP (fun y => decide (y = b)) = 1 := by
  intro l
  induction l with
  | nil => intro _ hb; exact absurd hb (List.not_mem_nil b)
  | cons x xs ih =>
    intro hnd hb
    obtain ⟨hx, hndxs⟩ := List.nodup_cons.mp hnd
    rw [List.countP_cons]
    rcases List.mem_cons.mp hb with h | h
    · subst h
      have hz : xs.countP (fun y => decide (y = b)) = 0 := by
        rw [List.countP_eq_zero]
        intro a ha hpa
        have hax : a = b := of_decide_eq_true hpa
        exact hx (hax ▸ ha)
      rw [hz]
      simp
    · have hxb : ¬ x = b := fun hxe => hx (hxe ▸ h)
      rw [ih hndxs h]
      simp [hxb]

theorem pairsAfter_countP_one {α : Type} [DecidableEq α] :
    ∀ l : List α, l.Nodup → ∀ a b : α, a ≠ b → a ∈ l → b ∈ l →
      (pairsAfter l).countP
        (fun p => decide (p = (a, b)) || decide (p = (b, a))) = 1 := by
  intro l
  induction l with
  | nil => intro _ a _ _ ha; exact absurd ha (List.not_mem_nil a)
  | cons x xs ih =>
    intro hnd a b hab ha hb
    obtain ⟨hx, hndxs⟩ := List.nodup_cons.mp hnd
    rw [pairsAfter, List.countP_append]
    rcases List.mem_cons.mp ha with h | haxs
    · subst h
      have hbxs : b ∈ xs := by
        rcases List.mem_cons.mp hb with h | h
        · exact absurd h.symm hab
        · exact h
      have hblock : (xs.map fun y => (a, y)).countP
          (fun p => decide (p = (a, b)) || decide (p = (b, a))) = 1 := by
        rw [List.countP_map]
        rw [List.countP_congr (q := fun y => decide (y = b)) ?_]
        · exact countP_decide_mem b xs hndxs hbxs
        · intro y hy
          simp only [Function.comp]
          have hna : ¬ ((a, y) = (b, a)) := fun hc => hab (congrArg Prod.fst hc)
          by_cases hyb : y = b
          · subst hyb; simp
          · have hne : ¬ ((a, y) = (a, b)) := fun hc => hyb (congrArg Prod.snd hc)
            simp [hne, hna, hyb]
      have hrest : (pairsAfter xs).countP
          (fun p => decide (p = (a, b)) || decide (p = (b, a))) = 0 := by
        rw [List.countP_eq_zero]
        intro p hp hpred
        obtain ⟨h1, h2⟩ := mem_pairsAfter p xs hp
        rcases Bool.or_eq_true_iff.mp hpred with hc | hc
        · have hc1 : p.1 = a := congrArg Prod.fst (of_decide_eq_true hc)
          exact hx (hc1 ▸ h1)
        · have hc2 : p.2 = a := congrArg Prod.snd (of_decide_eq_true hc)
          exact hx (hc2 ▸ h2)
      rw [hblock, hrest]
    · rcases List.mem_cons.mp hb with h | hbxs
      · subst h
        have hblock : (xs.map fun y => (b, y)).countP
            (fun p => decide (p = (a, b)) || decide (p = (b, a))) = 1 := by
          rw [List.countP_map]
          rw [List.countP_congr (q := fun y => decide (y = a)) ?_]
          · exact countP_decide_mem a xs hndxs haxs
          · intro y hy
            simp only [Function.comp]
            have hnb : ¬ ((b, y) = (a, b)) := fun hc => hab (congrArg Prod.fst hc).symm
            by_cases hya : y = a
            · subst hya; simp [hnb]
            · have hne : ¬ ((b, y) = (b, a)) := fun hc => hya (congrArg Prod.snd hc)
              simp [hne, hnb, hya]
        have hrest : (pairsAfter xs).countP
            (fun p => decide (p = (a, b)) || decide (p = (b, a))) = 0 := by
          rw [List.countP_eq_zero]
          intro p hp hpred
          obtain ⟨h1, h2⟩ := mem_pairsAfter p xs hp
          rcases Bool.or_eq_true_iff.mp hpred with hc | hc
          · have hc2 : p.2 = b := congrArg Prod.snd (of_decide_eq_true hc)
            exact hx (hc2 ▸ h2)
          · have hc1 : p.1 = b := congrArg Prod.fst (of_decide_eq_true hc)
            exact hx (hc1 ▸ h1)
        rw [hblock, hrest]
      · have hblock : (xs.map fun y => (x, y)).countP
            (fun p => decide (p = (a, b)) || decide (p = (b, a))) = 0 := by
          rw [List.countP_eq_zero]
          intro p hp hpred
          obtain ⟨y, hy, hpy⟩ := List.mem_map.mp hp
          rcases Bool.or_eq_true_iff.mp hpred with hc | hc
          · have hc1 : p.1 = a := congrArg Prod.fst (of_decide_eq_true hc)
            have hxa : x = a := by rw [← hpy] at hc1; exact hc1
            exact hx (hxa ▸ haxs)
          · have hc1 : p.1 = b := congrArg Prod.fst (of_decide_eq_true hc)
            have hxb : x = b := by rw [← hpy] at hc1; exact hc1
            exact hx (hxb ▸ hbxs)
        rw [hblock, ih hndxs a b hab haxs hbxs]

theorem synchronize_with_layer_type (a b : ThinkingLayer) (d : SyncData) :
    (synchronize_with_layer a b d).2.layer_type = a.layer_type := by
  simp only [synchronize_with_layer]
  split_ifs <;> rfl

theorem syncFold_spec (results : List (ThinkingLayerType × LayerResult)) :
    ∀ (ps : List (ThinkingLayerType × ThinkingLayerType)) (acc : SyncAccum),
      (∀ t, (acc.layers t).layer_type = t) →
      (∀ t, ((ps.foldl (syncStep results) acc).layers t).layer_type = t) ∧
      (ps.foldl (syncStep results) acc).total_sync =
        acc.total_sync +
          (ps.map fun p => calculate_compatibility p.1 p.2).sum ∧
      (ps.foldl (syncStep results) acc).sync_count = acc.sync_count + ps.length := by
  intro ps
  induction ps with
  | nil => intro acc h; exact ⟨h, by simp, by simp⟩
  | cons p ps ih =>
    intro acc h
    have hty : ∀ t, ((syncStep results acc p).layers t).layer_type = t := by
      intro t
      simp only [syncStep]
      by_cases hp : t = p.1
      · subst hp
        rw [if_pos rfl, synchronize_with_layer_type]
        exact h p.1
      · rw [if_neg hp]
        exact h t
    have hscore : (syncStep results acc p).total_sync =
        acc.total_sync + calculate_compatibility p.1 p.2 := by
      simp only [syncStep, synchronize_with_layer_score]
      rw [h p.1, h p.2]
    have hcount : (syncStep results acc p).sync_count = acc.sync_count + 1 := rfl
    obtain ⟨h1, h2, h3⟩ := ih (syncStep results acc p) hty
    refine ⟨h1, ?_, ?_⟩
    · rw [List.foldl_cons] at *
      rw [h2, hscore, List.map_cons, List.sum_cons]
      ring
    · rw [List.foldl_cons] at *
      rw [h3, hcount, List.length_cons]
      omega

/-- Claim C4: for a round over N selected layers, `_synchronize_layers`
returns exactly 1.0 when N < 2; otherwise it visits exactly the C(N,2)
unordered layer pairs — each unordered pair of distinct selected layers
occurring exactly once in the visited pair list — and returns the arithmetic
mean of the pair scores.  Additionally, a single-layer round through
`comprehensive_processing` (with no database manager so the success path is
reached) reports synchronization level 1. -/
theorem claim_C4_sync_mean (layers : ThinkingLayerType → ThinkingLayer)
    (matrix : ThinkingLayerType → ThinkingLayerType → ℚ)
    (active : List ThinkingLayerType)
    (results : List (ThinkingLayerType × LayerResult))
    (hty : ∀ t, (layers t).layer_type = t) (hnd : active.Nodup) :
    (active.length < 2 →
      (synchronize_layers layers matrix active results).score = 1) ∧
    (2 ≤ active.length →
      (synchronize_layers layers matrix active results).score =
        ((pairsAfter active).map fun p => calculate_compatibility p.1 p.2).sum /
          (((pairsAfter active).length : ℚ)) ∧
      (pairsAfter active).length = active.length.choose 2 ∧
      (∀ a b, a ≠ b → a ∈ active → b ∈ active →
        (pairsAfter active).countP
          (fun p => decide (p = (a, b)) || decide (p = (b, a))) = 1)) ∧
    (∀ (Input : Type) (proc : Processor Input) (input : Input)
      (t : ThinkingLayerType),
      roundSyncLevel
        (comprehensive_processing proc initialCoreNoManager input (some [t])).1 =
        some 1) := by
  refine ⟨?_, ?_, fun Input proc input t => rfl⟩
  · intro h
    simp only [synchronize_layers, if_pos h]
  · intro h2
    have hnl : ¬ active.length < 2 := by omega
    obtain ⟨h1, hsum, hcount⟩ :=
      syncFold_spec results (pairsAfter active) ⟨layers, matrix, 0, 0⟩ hty
    refine ⟨?_, length_pairsAfter active,
      fun a b hab ha hb => pairsAfter_countP_one active hnd a b hab ha hb⟩
    simp only [synchronize_layers, if_neg hnl]
    have hpos : 0 < (pairsAfter active).length := by
      rw [length_pairsAfter]
      exact Nat.choose_pos h2
    rw [hsum, hcount]
    simp only [zero_add, Nat.zero_add]
    rw [if_pos hpos]

/-- Witness for C4: the round over the distinct layers MATHEMATICAL, LOGICAL
and PHYSICAL (registry layer types are self-describing), whose three pair
scores 0.9, 0.8 and 0.5 average to 11/15. -/
theorem claim_C4_witness :
    ([MATHEMATICAL, LOGICAL, PHYSICAL] : List ThinkingLayerType).Nodup ∧
    (∀ t, (initialThinkingLayer t).layer_type = t) ∧
    (synchronize_layers initialThinkingLayer (fun _ _ => 0)
        [MATHEMATICAL, LOGICAL, PHYSICAL] []).score = 11/15 := by
  refine ⟨by decide, fun t => rfl, ?_⟩
  have h := (claim_C4_sync_mean initialThinkingLayer (fun _ _ => 0)
    [MATHEMATICAL, LOGICAL, PHYSICAL] [] (fun t => rfl) (by decide)).2.1
    (by norm_num)
  rw [h.1]
  rw [show pairsAfter [MATHEMATICAL, LOGICAL, PHYSICAL] =
    [(MATHEMATICAL, LOGICAL), (MATHEMATICAL, PHYSICAL), (LOGICAL, PHYSICAL)] from rfl]
  simp only [List.map_cons, List.map_nil, List.sum_cons, List.sum_nil,
    List.length_cons, List.length_nil]
  rw [show calculate_compatibility MATHEMATICAL LOGICAL = 9/10 from rfl,
    show calculate_compatibility MATHEMATICAL PHYSICAL = 8/10 from rfl,
    show calculate_compatibility LOGICAL PHYSICAL = 1/2 from rfl]
  norm_num

theorem filterMap_eq_map_of_isSome {α β : Type} (f : α → Option β) (d : β) :
    ∀ l : List α, (∀ a ∈ l, (f a).isSome) →
      l.filterMap f = l.map (fun a => (f a).getD d) := by
  intro l
  induction l with
  | nil => intro _; rfl
  | cons x xs ih =>
    intro h
    obtain ⟨v, hv⟩ := Option.isSome_iff_exists.mp (h x (List.mem_cons_self x xs))
    simp only [List.filterMap_cons, List.map_cons, hv, Option.getD_some]
    rw [ih fun a ha => h a (List.mem_cons_of_mem x ha)]

/-- Claim C6: `_integrate_layer_results` counts exactly the non-errored
layers as successful and sets the average confidence to the arithmetic mean
of the non-errored layers' confidences (0 when none succeeded), provided
every non-errored result carries a specialized payload, as every result
produced by `process_input` does; in particular the confidences
[0.8, 0.6, errored] yield average 0.7 and successful count 2. -/
theorem claim_C6_integration (results : List (ThinkingLayerType × LayerResult))
    (h : ∀ p ∈ results, truthyError p.2.error = false → p.2.specialized.isSome) :
    (integrate_layer_results results).successful_layers =
      (results.filter fun p => !truthyError p.2.error).length ∧
    (integrate_layer_results results).average_confidence =
      (if (results.filter fun p => !truthyError p.2.error).isEmpty then 0
       else ((results.filter fun p => !truthyError p.2.error).map
           (fun p => (p.2.specialized.map fun s => s.confidence).getD 0)).sum /
         (((results.filter fun p => !truthyError p.2.error).length : ℚ))) ∧
    (integrate_layer_results c6SampleResults).average_confidence = 7/10 ∧
    (integrate_layer_results c6SampleResults).successful_layers = 2 := by
  have hsome : ∀ p ∈ results.filter fun p => !truthyError p.2.error,
      ((fun p : ThinkingLayerType × LayerResult =>
        p.2.specialized.map fun s => s.confidence) p).isSome := by
    intro p hp
    obtain ⟨hpr, hpf⟩ := List.mem_filter.mp hp
    have hf : truthyError p.2.error = false := by
      rwa [Bool.not_eq_true'] at hpf
    simpa [Option.isSome_map] using h p hpr hf
  have hmap := filterMap_eq_map_of_isSome
    (fun p : ThinkingLayerType × LayerResult =>
      p.2.specialized.map fun s => s.confidence) 0
    (results.filter fun p => !truthyError p.2.error) hsome
  refine ⟨rfl, ?_, ?_, rfl⟩
  · simp only [integrate_layer_results, hmap, List.length_map]
    by_cases he : (results.filter fun p => !truthyError p.2.error) = []
    · simp [he]
    · have h1 : ((results.filter fun p => !truthyError p.2.error).map
          (fun p => (p.2.specialized.map fun s => s.confidence).getD 0)).isEmpty
            = false := by
        simp [List.isEmpty_iff, he]
      have h2 : (results.filter fun p => !truthyError p.2.error).isEmpty = false := by
        simp [List.isEmpty_iff, he]
      rw [h1, h2]
  · have hval : (integrate_layer_results c6SampleResults).average_confidence =
        (8/10 + (6/10 + 0)) / (2 : ℚ) := rfl
    rw [hval]
    norm_num

/-- Witness for C6: the sample results with confidences 0.8, 0.6 and one
errored layer satisfy the payload hypothesis, and the theorem applied to them
gives average confidence 0.7. -/
theorem claim_C6_witness :
    (∀ p ∈ c6SampleResults, truthyError p.2.error = false →
      p.2.specialized.isSome) ∧
    (integrate_layer_results c6SampleResults).average_confidence = 7/10 :=
  ⟨by decide, (claim_C6_integration c6SampleResults (by decide)).2.2.1⟩

theorem filter_beq_filter_bne {α : Type} (f : α → String) (pid : String) :
    ∀ l : List α, ((l.filter fun a => f a != pid).filter fun a => f a == pid) = [] := by
  intro l
  induction l with
  | nil => rfl
  | cons x xs ih =>
    cases hx : f x == pid <;> simp [List.filter_cons, hx, bne, ih]

/-- Claim C7: `store_pattern` is an idempotent upsert — storing under a
pattern id twice leaves exactly one stored record for that id, carrying the
pattern type, payload and confidence of the second call (with the default
usage count 0), regardless of the database's prior contents. -/
theorem claim_C7_pattern_upsert (db : BaseDbState) (pid t1 d1 : String) (c1 : ℚ)
    (t2 d2 : String) (c2 : ℚ) :
    ((store_pattern (store_pattern db pid t1 d1 c1) pid t2 d2 c2).discovered_patterns.filter
        fun r => r.pattern_id == pid) =
      [{ pattern_id := pid, pattern_type := t2, pattern_data := d2,
         confidence := c2, usage_count := 0 }] := by
  simp [store_pattern, List.filter_append, filter_beq_filter_bne
    (fun r : DiscoveredPatternRow => r.pattern_id) pid]

/-- Counterexample for C8: `log_learning_session` is not a no-op on a
duplicate session id — logging session "S" with `success = true` and then
again with `success = false` leaves the single stored record for "S"
carrying the second call's `success = false`, so the first record was
replaced, not preserved. -/
theorem claim_C8_counterexample :
    (log_learning_session (log_learning_session emptyBaseDb "S"
        LearningSource.USER_INTERACTION "d" true "m") "S"
        LearningSource.USER_INTERACTION "d" false "m").learning_sessions =
      [{ session_id := "S", source := LearningSource.USER_INTERACTION,
         data_type := "d", success := false, metadata := "m" }] ∧
    (log_learning_session emptyBaseDb "S" LearningSource.USER_INTERACTION "d"
        true "m").learning_sessions =
      [{ session_id := "S", source := LearningSource.USER_INTERACTION,
         data_type := "d", success := true, metadata := "m" }] :=
  ⟨rfl, rfl⟩

/-- Claim C8 as amended: `log_learning_session` keeps the session id unique —
after two calls with the same id exactly one record for that id remains — but
the duplicate insert is `INSERT OR REPLACE`, not a no-op: the remaining
record carries the second call's source, data type, success flag and
metadata. -/
theorem claim_C8_session_replace (db : BaseDbState) (sid : String)
    (s1 : LearningSource) (dt1 : String) (b1 : Bool) (m1 : String)
    (s2 : LearningSource) (dt2 : String) (b2 : Bool) (m2 : String) :
    ((log_learning_session (log_learning_session db sid s1 dt1 b1 m1) sid s2 dt2
        b2 m2).learning_sessions.filter fun r => r.session_id == sid) =
      [{ session_id := sid, source := s2, data_type := dt2, success := b2,
         metadata := m2 }] := by
  simp [log_learning_session, List.filter_append, filter_beq_filter_bne
    (fun r : LearningSessionRow => r.session_id) sid]

/-- Claim C10: the complete database manager registers knowledge stores for
exactly five of the eight layer types (mathematical, linguistic, logical,
interpretive, physical); for SYMBOLIC, VISUAL and SEMANTIC,
`store_learning_for_layer` leaves the manager — every database and every
stored record — unchanged, and `retrieve_knowledge_from_layer` returns the
empty list. -/
theorem claim_C10_registered_layers :
    (∀ t, hasDatabaseFor t =
      ([MATHEMATICAL, LINGUISTIC, LOGICAL, INTERPRETIVE, PHYSICAL] :
        List ThinkingLayerType).contains t) ∧
    (∀ (m : CompleteSpecializedDatabaseManager) (data : String)
      (source : LearningSource) (metadata : String),
      store_learning_for_layer m SYMBOLIC data source metadata = m ∧
      store_learning_for_layer m VISUAL data source metadata = m ∧
      store_learning_for_layer m SEMANTIC data source metadata = m) ∧
    (∀ (m : CompleteSpecializedDatabaseManager) (query : String) (limit : ℕ),
      retrieve_knowledge_from_layer m SYMBOLIC query limit = [] ∧
      retrieve_knowledge_from_layer m VISUAL query limit = [] ∧
      retrieve_knowledge_from_layer m SEMANTIC query limit = []) :=
  ⟨fun t => by cases t <;> rfl,
   fun _ _ _ _ => ⟨rfl, rfl, rfl⟩,
   fun _ _ _ => ⟨rfl, rfl, rfl⟩⟩

/-- Claim C1 (code-bug evaluation): whenever a database manager is present —
the normal state after `initialize_core` — every round over at least one
selected layer evaluates `self.database_manager.store_learning(...)`, whose
attribute lookup raises, so `comprehensive_processing` returns the truncated
`except`-path record: no per-layer results, no synchronization level and no
integrated report, for every input, processor behavior and nonempty layer
selection.  By contrast, with the manager absent, a round whose every layer
fails does return a complete record with successful-layer count 0. -/
theorem claim_C1_round_truncated :
    (∀ (Input : Type) (proc : Processor Input) (input : Input)
      (t : ThinkingLayerType) (rest : List ThinkingLayerType),
      (comprehensive_processing proc initialCore input (some (t :: rest))).1 =
        RoundResult.failed (t :: rest) storeLearningAttributeError ∧
      roundLayerResults
        (comprehensive_processing proc initialCore input (some (t :: rest))).1 =
        none ∧
      roundSyncLevel
        (comprehensive_processing proc initialCore input (some (t :: rest))).1 =
        none) ∧
    roundSuccessfulLayers
      (comprehensive_processing failingProcessor initialCoreNoManager ()
        (some [MATHEMATICAL, LOGICAL])).1 = some 0 :=
  ⟨fun _ _ _ _ _ => ⟨rfl, rfl, rfl⟩, rfl⟩

/-- Claim C2: an exception inside a layer's processing logic never
propagates out of `process_input` — the result record carries the exception
in its `error` field with the layer's type, and the layer enters the ERROR
state.  The claim's consequence about the round, however, fails on the code
(same store_learning attribute bug as C1): a round over failing LOGICAL and
succeeding MATHEMATICAL returns the truncated error record carrying neither
layer's result, even though `process_input` itself isolates the failure. -/
theorem claim_C2_process_isolation (Input : Type) (proc : Processor Input)
    (layer : ThinkingLayer) (input : Input) (e : String)
    (h : proc layer.layer_type input = Except.error e) :
    (process_input proc layer input).1.error = some e ∧
    (process_input proc layer input).1.layer_type = layer.layer_type ∧
    (process_input proc layer input).2.state = ERROR ∧
    (process_input c2Processor (initialThinkingLayer LOGICAL) ()).1.error =
      some "boom" ∧
    (process_input c2Processor (initialThinkingLayer MATHEMATICAL) ()).1.specialized =
      some { type := "analysis", confidence := 8/10 } ∧
    (comprehensive_processing c2Processor initialCore ()
        (some [LOGICAL, MATHEMATICAL])).1 =
      RoundResult.failed [LOGICAL, MATHEMATICAL] storeLearningAttributeError := by
  refine ⟨?_, ?_, ?_, rfl, rfl, rfl⟩
  all_goals simp [process_input, h]

/-- Witness for C2: the failing processor does raise on the LOGICAL layer,
and the theorem applied there shows the error captured in the result. -/
theorem claim_C2_witness :
    c2Processor (initialThinkingLayer LOGICAL).layer_type () =
      Except.error "boom" ∧
    (process_input c2Processor (initialThinkingLayer LOGICAL) ()).1.error =
      some "boom" :=
  ⟨rfl, (claim_C2_process_isolation Unit c2Processor
    (initialThinkingLayer LOGICAL) () "boom" rfl).1⟩

/-! ### Order properties of the ranked sort -/

theorem rankGt_false_iff {α : Type} (key : α → ℚ × ℚ) (a b : α) :
    rankGt key a b = false ↔
      ((key a).1 ≤ (key b).1 ∧ ((key a).1 = (key b).1 → (key a).2 ≤ (key b).2)) := by
  rw [rankGt, decide_eq_false_iff_not]
  constructor
  · intro h
    push_neg at h
    exact h
  · intro h
    push_neg
    exact h

theorem rankGt_true_asymm {α : Type} (key : α → ℚ × ℚ) {a b : α}
    (h : rankGt key a b = true) : rankGt key b a = false := by
  rw [rankGt, decide_eq_true_eq] at h
  rw [rankGt_false_iff]
  rcases h with h | ⟨he, hlt⟩
  · exact ⟨le_of_lt h, fun hc => absurd (hc ▸ h) (lt_irrefl _)⟩
  · exact ⟨le_of_eq he.symm, fun _ => le_of_lt hlt⟩

theorem rankGt_false_trans {α : Type} (key : α → ℚ × ℚ) {a b c : α}
    (h1 : rankGt key b a = false) (h2 : rankGt key c b = false) :
    rankGt key c a = false := by
  rw [rankGt_false_iff] at h1 h2 ⊢
  refine ⟨le_trans h2.1 h1.1, fun he => ?_⟩
  have hcb : (key c).1 = (key b).1 := le_antisymm h2.1 (he ▸ h1.1)
  have hba : (key b).1 = (key a).1 := le_antisymm h1.1 (hcb ▸ he ▸ le_refl _)
  exact le_trans (h2.2 hcb) (h1.2 hba)

theorem mem_insertRanked {α : Type} (key : α → ℚ × ℚ) (a y : α) :
    ∀ l : List α, y ∈ insertRanked key a l → y = a ∨ y ∈ l := by
  intro l
  induction l with
  | nil =>
    intro h
    rw [insertRanked, List.mem_singleton] at h
    exact Or.inl h
  | cons b l ih =>
    intro h
    rw [insertRanked] at h
    by_cases hb : rankGt key b a = true
    · rw [if_pos hb] at h
      rcases List.mem_cons.mp h with h2 | h2
      · exact Or.inr (h2 ▸ List.mem_cons_self b l)
      · rcases ih h2 with h3 | h3
        · exact Or.inl h3
        · exact Or.inr (List.mem_cons_of_mem b h3)
    · rw [if_neg hb] at h
      rcases List.mem_cons.mp h with h2 | h2
      · exact Or.inl h2
      · exact Or.inr h2

theorem pairwise_insertRanked {α : Type} (key : α → ℚ × ℚ) (a : α) :
    ∀ l : List α, (l.Pairwise fun x y => rankGt key y x = false) →
      (insertRanked key a l).Pairwise fun x y => rankGt key y x = false := by
  intro l
  induction l with
  | nil => intro _; simp [insertRanked]
  | cons b l ih =>
    intro h
    obtain ⟨hbl, hl⟩ := List.pairwise_cons.mp h
    rw [insertRanked]
    by_cases hb : rankGt key b a = true
    · rw [if_pos hb]
      refine List.pairwise_cons.mpr ⟨?_, ih hl⟩
      intro y hy
      rcases mem_insertRanked key a y l hy with h2 | h2
      · exact h2 ▸ rankGt_true_asymm key hb
      · exact hbl y h2
    · rw [if_neg hb]
      refine List.pairwise_cons.mpr ⟨?_, h⟩
      intro y hy
      have hbf : rankGt key b a = false := Bool.not_eq_true _ ▸ eq_false_of_ne_true hb
      rcases List.mem_cons.mp hy with h2 | h2
      · exact h2 ▸ hbf
      · exact rankGt_false_trans key hbf (hbl y h2)

theorem pairwise_sortByRankDesc {α : Type} (key : α → ℚ × ℚ) :
    ∀ l : List α,
      (sortByRankDesc key l).Pairwise fun x y => rankGt key y x = false := by
  intro l
  induction l with
  | nil => simp [sortByRankDesc]
  | cons a l ih =>
    rw [sortByRankDesc]
    exact pairwise_insertRanked key a _ ih

theorem pairwise_fst_sortByRankDesc {α : Type} (key : α → ℚ × ℚ) (l : List α) :
    (sortByRankDesc key l).Pairwise fun x y => (key y).1 ≤ (key x).1 :=
  (pairwise_sortByRankDesc key l).imp
    (fun h => ((rankGt_false_iff key _ _).mp h).1)

theorem filterMap_const_none {α β : Type} (f : α → Option β)
    (hf : ∀ a, f a = none) : ∀ l : List α, l.filterMap f = [] := by
  intro l
  induction l with
  | nil => rfl
  | cons x xs ih => rw [List.filterMap_cons, hf x, ih]

theorem filterMap_some_fun {α β : Type} (f : α → β) :
    ∀ l : List α, (l.filterMap fun a => some (f a)) = l.map f := by
  intro l
  induction l with
  | nil => rfl
  | cons x xs ih => rw [List.filterMap_cons, List.map_cons, ih]

/-- Claim C9: the knowledge query returns the empty list rather than raising
when the store holds no matching records or when the requested layer has no
database; the result list is truncated to the limit and ordered by the
store's descending ranking keys (accuracy for equations, precision for
constants).  Determinism for equal inputs is inherent: the embedded query is
a pure function of the store state. -/
theorem claim_C9_query_empty_ordered (db : MathematicalDatabase) (query : String)
    (limit : ℕ)
    (heq : ∀ r ∈ db.equations, equationMatches query r = false)
    (hconst : ∀ r ∈ db.mathematical_constants, constantMatches query r = false) :
    db.retrieve_knowledge query limit = [] ∧
    (∀ (db' : MathematicalDatabase) (q : String) (lim : ℕ),
      (db'.retrieve_knowledge q lim).length ≤ lim ∧
      ((db'.retrieve_knowledge q lim).filterMap equationAccuracy).Pairwise
        (fun x y => y ≤ x) ∧
      ((db'.retrieve_knowledge q lim).filterMap constantPrecision).Pairwise
        (fun x y => y ≤ x)) ∧
    (∀ (m : CompleteSpecializedDatabaseManager) (q : String) (lim : ℕ),
      retrieve_knowledge_from_layer m SYMBOLIC q lim = [] ∧
      retrieve_knowledge_from_layer m VISUAL q lim = [] ∧
      retrieve_knowledge_from_layer m SEMANTIC q lim = []) := by
  refine ⟨?_, ?_, fun _ _ _ => ⟨rfl, rfl, rfl⟩⟩
  · have h1 : db.equations.filter (equationMatches query) = [] :=
      List.filter_eq_nil_iff.mpr fun r hr => by simp [heq r hr]
    have h2 : db.mathematical_constants.filter (constantMatches query) = [] :=
      List.filter_eq_nil_iff.mpr fun r hr => by simp [hconst r hr]
    simp [MathematicalDatabase.retrieve_knowledge, h1, h2, sortByRankDesc]
  · intro db' q lim
    refine ⟨List.length_take_le lim _, ?_, ?_⟩
    · have hsorted := pairwise_fst_sortByRankDesc
        (fun r : EquationRow => (r.accuracy, (r.usage_count : ℚ)))
        (db'.equations.filter (equationMatches q))
      have htake := hsorted.sublist (List.take_sublist lim _)
      have hmapped : ((((sortByRankDesc
          (fun r : EquationRow => (r.accuracy, (r.usage_count : ℚ)))
          (db'.equations.filter (equationMatches q))).take lim).map fun r =>
            KnowledgeRecord.equation r.equation_id r.equation_type
              r.equation_formula r.parameters r.accuracy
              r.usage_count).filterMap equationAccuracy).Pairwise
          (fun x y => y ≤ x) := by
        rw [List.filterMap_map]
        rw [show ((equationAccuracy ∘ fun r : EquationRow =>
            KnowledgeRecord.equation r.equation_id r.equation_type
              r.equation_formula r.parameters r.accuracy r.usage_count)) =
          (fun r : EquationRow => some r.accuracy) from rfl]
        rw [filterMap_some_fun (fun r : EquationRow => r.accuracy)]
        exact List.pairwise_map.mpr (htake.imp fun h => h)
      have hconstpart : (((sortByRankDesc
          (fun r : MathConstantRow => ((r.precision_level : ℚ), 0))
          (db'.mathematical_constants.filter (constantMatches q))).take lim).map
            fun r => KnowledgeRecord.constant r.constant_name r.constant_value
              r.constant_description r.precision_level).filterMap
          equationAccuracy = [] := by
        rw [List.filterMap_map]
        exact filterMap_const_none _ (fun r => rfl) _
      simp only [MathematicalDatabase.retrieve_knowledge]
      refine List.Pairwise.sublist
        (List.Sublist.filterMap equationAccuracy (List.take_sublist lim _)) ?_
      rw [List.filterMap_append, hconstpart, List.append_nil]
      exact hmapped
    · have hsorted := pairwise_fst_sortByRankDesc
        (fun r : MathConstantRow => ((r.precision_level : ℚ), 0))
        (db'.mathematical_constants.filter (constantMatches q))
      have htake := hsorted.sublist (List.take_sublist lim _)
      have heqpart : (((sortByRankDesc
          (fun r : EquationRow => (r.accuracy, (r.usage_count : ℚ)))
          (db'.equations.filter (equationMatches q))).take lim).map fun r =>
            KnowledgeRecord.equation r.equation_id r.equation_type
              r.equation_formula r.parameters r.accuracy
              r.usage_count).filterMap constantPrecision = [] := by
        rw [List.filterMap_map]
        exact filterMap_const_none _ (fun r => rfl) _
      have hmapped : ((((sortByRankDesc
          (fun r : MathConstantRow => ((r.precision_level : ℚ), 0))
          (db'.mathematical_constants.filter (constantMatches q))).take lim).map
            fun r => KnowledgeRecord.constant r.constant_name r.constant_value
              r.constant_description r.precision_level).filterMap
          constantPrecision).Pairwise (fun x y => y ≤ x) := by
        rw [List.filterMap_map]
        rw [show ((constantPrecision ∘ fun r : MathConstantRow =>
            KnowledgeRecord.constant r.constant_name r.constant_value
              r.constant_description r.precision_level)) =
          (fun r : MathConstantRow => some r.precision_level) from rfl]
        rw [filterMap_some_fun (fun r : MathConstantRow => r.precision_level)]
        refine List.pairwise_map.mpr (htake.imp fun h => ?_)
        exact Nat.cast_le.mp h
      simp only [MathematicalDatabase.retrieve_knowledge]
      refine List.Pairwise.sublist
        (List.Sublist.filterMap constantPrecision (List.take_sublist lim _)) ?_
      rw [List.filterMap_append, heqpart, List.nil_append]
      exact hmapped

/-- Witness for C9: the empty mathematical store has no matching row for the
query "alpha", and the theorem applied there returns the empty list. -/
theorem claim_C9_witness :
    (∀ r ∈ emptyMathematicalDatabase.equations,
      equationMatches "alpha" r = false) ∧
    (∀ r ∈ emptyMathematicalDatabase.mathematical_constants,
      constantMatches "alpha" r = false) ∧
    emptyMathematicalDatabase.retrieve_knowledge "alpha" 10 = [] :=
  ⟨fun r hr => absurd hr (List.not_mem_nil r),
   fun r hr => absurd hr (List.not_mem_nil r),
   (claim_C9_query_empty_ordered emptyMathematicalDatabase "alpha" 10
     (fun r hr => absurd hr (List.not_mem_nil r))
     (fun r hr => absurd hr (List.not_mem_nil r))).1⟩
